import Mathlib

/-!
# Verification of the viz1090 decode-and-track core

Shallow embedding, in Lean 4, of the decode-and-track pipeline of the
viz1090 repository: the Mode S / ADS-B message decoder, the CPR position
resolver, the aircraft track store, and the Beast framing protocol.

Conventions of the embedding:
* Go byte / integer values become `Nat` or `Int`; byte-level operations use
  `&&&`, `|||`, `<<<`, `>>>` exactly as the source uses `&`, `|`, `<<`, `>>`.
* `float64` arithmetic on CPR values becomes exact arithmetic over `ℚ`.
  Every float operation in the CPR path (`/131072`, `*`, `+`, `math.Floor`,
  comparisons against the NL threshold table) is exact or well-conditioned at
  the inputs considered, so rational arithmetic agrees with the double
  computation there.
* `time.Time` values become `ℤ` counts of milliseconds, with `0` standing
  for Go's zero time (`IsZero`); this matches `app.go`, which stores the CPR
  reception times as `int64` milliseconds, and `time.Duration.Milliseconds`,
  which compares at millisecond granularity.
* The Go map `map[uint32]*Aircraft` becomes a function `ℕ → Option Aircraft`;
  mutation becomes explicit state passing.
* The floating-point `math.Sqrt`/`math.Atan2` used only for the velocity
  vector of type-code-19 messages are not shallowly embeddable; the decoder
  is parameterized by these two integer-valued oracles (`sqrtInt`,
  `atan2Deg`).  No claim below depends on their values.
-/

/-- Historical trail sample (source: `Position` in the `adsb` package). -/
structure Position where
  Lat : ℚ
  Lon : ℚ
  Altitude : ℤ
  Heading : ℤ
  Timestamp : ℤ
deriving DecidableEq, Repr

/-- Tracked aircraft state (source: `Aircraft` in the `adsb` package).
Rendering/label animation fields, which no claim touches, are omitted; the
CPR reception times are `ℤ` milliseconds with `0` = never seen (Go zero
time), as in `app.go`'s `int64` representation. -/
structure Aircraft where
  ICAO : ℕ
  Flight : List Char
  Altitude : ℤ
  Speed : ℤ
  Heading : ℤ
  VertRate : ℤ
  Lat : ℚ
  Lon : ℚ
  Seen : ℤ
  SeenLatLon : ℤ
  OnGround : Bool
  EvenCPRLat : ℤ
  EvenCPRLon : ℤ
  OddCPRLat : ℤ
  OddCPRLon : ℤ
  EvenCPRTime : ℤ
  OddCPRTime : ℤ
  Trail : List Position
deriving DecidableEq, Repr

/-- Decoded ADS-B message (source: `Message` in the `adsb` package). -/
structure Message where
  DF : ℕ
  CA : ℕ
  CF : ℕ
  FS : ℕ
  ModeA : ℕ
  ICAO : ℕ
  TypeCode : ℕ
  SubType : ℕ
  Flight : List Char
  Altitude : ℤ
  Speed : ℤ
  Heading : ℤ
  VertRate : ℤ
  Lat : ℚ
  Lon : ℚ
  RawLat : ℕ
  RawLon : ℕ
  OddFlag : Bool
  OnGround : Bool
  SignalLevel : ℕ
  Timestamp : ℤ
  CRC : ℕ
  IID : ℕ
  Valid : Bool
deriving DecidableEq, Repr

/-- The zero value of `Message`, as produced by Go's `&Message{...}` literal
before any field assignment. -/
def emptyMessage : Message :=
  { DF := 0, CA := 0, CF := 0, FS := 0, ModeA := 0, ICAO := 0, TypeCode := 0,
    SubType := 0, Flight := [], Altitude := 0, Speed := 0, Heading := 0,
    VertRate := 0, Lat := 0, Lon := 0, RawLat := 0, RawLon := 0,
    OddFlag := false, OnGround := false, SignalLevel := 0, Timestamp := 0,
    CRC := 0, IID := 0, Valid := false }

namespace adsb

/-- Source: `TrailLength` in the `adsb` package. -/
def TrailLength : ℕ := 120

/-- Source: `cprModFunction` — Go's truncated `%` (here `Int.tmod`) with a
correction to a nonnegative representative. -/
def cprModFunction (a b : ℤ) : ℤ :=
  let res := a.tmod b
  if res < 0 then res + b else res

/-- Source: `cprNLFunction` in the `adsb` package (`part_002`) — the
threshold-chain NL (longitude zone count) function. -/
def cprNLFunction (lat : ℚ) : ℤ :=
  let lat := if lat < 0 then -lat else lat
  if lat < 10.47047130 then 59
  else if lat < 14.82817437 then 58
  else if lat < 18.18626357 then 57
  else if lat < 21.02939493 then 56
  else if lat < 23.54504487 then 55
  else if lat < 25.82924707 then 54
  else if lat < 27.93898710 then 53
  else if lat < 29.91135686 then 52
  else if lat < 31.77209708 then 51
  else if lat < 33.53993436 then 50
  else if lat < 35.22899598 then 49
  else if lat < 36.85025108 then 48
  else if lat < 38.41241892 then 47
  else if lat < 39.92256684 then 46
  else if lat < 41.38651832 then 45
  else if lat < 42.80914012 then 44
  else if lat < 44.19454951 then 43
  else if lat < 45.54626723 then 42
  else if lat < 46.86733252 then 41
  else if lat < 48.16039128 then 40
  else if lat < 49.42776439 then 39
  else if lat < 50.67150166 then 38
  else if lat < 51.89342469 then 37
  else if lat < 53.09516153 then 36
  else if lat < 54.27817472 then 35
  else if lat < 55.44378444 then 34
  else if lat < 56.59318756 then 33
  else if lat < 57.72747354 then 32
  else if lat < 58.84763776 then 31
  else if lat < 59.95459277 then 30
  else if lat < 61.04917774 then 29
  else if lat < 62.13216659 then 28
  else if lat < 63.20427479 then 27
  else if lat < 64.26616523 then 26
  else if lat < 65.31845310 then 25
  else if lat < 66.36171008 then 24
  else if lat < 67.39646774 then 23
  else if lat < 68.42322022 then 22
  else if lat < 69.44242631 then 21
  else if lat < 70.45451075 then 20
  else if lat < 71.45986473 then 19
  else if lat < 72.45884545 then 18
  else if lat < 73.45177442 then 17
  else if lat < 74.43893416 then 16
  else if lat < 75.42056257 then 15
  else if lat < 76.39684391 then 14
  else if lat < 77.36789461 then 13
  else if lat < 78.33374083 then 12
  else if lat < 79.29428225 then 11
  else if lat < 80.24923213 then 10
  else if lat < 81.19801349 then 9
  else if lat < 82.13956981 then 8
  else if lat < 83.07199445 then 7
  else if lat < 83.99173563 then 6
  else if lat < 84.89166191 then 5
  else if lat < 85.75541621 then 4
  else if lat < 86.53536998 then 3
  else if lat < 87.00000000 then 2
  else 1

/-- Source: `cprN` in the `adsb` package. -/
def cprN (lat : ℚ) (odd : Bool) : ℤ :=
  let nl := cprNLFunction lat
  if !odd then nl else nl - 1

/-- Source: `cprDlon` in the `adsb` package. -/
def cprDlon (lat : ℚ) (odd : Bool) : ℚ :=
  360 / ((cprN lat odd : ℤ) : ℚ)

/-- Source: `DecodeCPRPosition` in the `adsb` package (`part_002`).
`none` corresponds to the Go `(0, 0, false)` "unresolved" return. -/
def DecodeCPRPosition (evenPos oddPos : Aircraft) : Option (ℚ × ℚ) :=
  if evenPos.EvenCPRTime = 0 ∨ oddPos.OddCPRTime = 0 then none
  else if 10000 < |evenPos.EvenCPRTime - oddPos.OddCPRTime| then none
  else
    let rlat0 : ℚ := (evenPos.EvenCPRLat : ℚ) / 131072
    let rlat1 : ℚ := (oddPos.OddCPRLat : ℚ) / 131072
    let rlon0 : ℚ := (evenPos.EvenCPRLon : ℚ) / 131072
    let rlon1 : ℚ := (oddPos.OddCPRLon : ℚ) / 131072
    let airDlat0 : ℚ := 360 / 60
    let airDlat1 : ℚ := 360 / 59
    let j : ℤ := ⌊59 * rlat0 - 60 * rlat1 + 1/2⌋
    let lat0 : ℚ := airDlat0 * ((cprModFunction j 60 : ℤ) + rlat0)
    let lat1 : ℚ := airDlat1 * ((cprModFunction j 59 : ℤ) + rlat1)
    let lat0 : ℚ := if 270 ≤ lat0 then lat0 - 360 else lat0
    let lat1 : ℚ := if 270 ≤ lat1 then lat1 - 360 else lat1
    if lat0 < -90 ∨ 90 < lat0 ∨ lat1 < -90 ∨ 90 < lat1 then none
    else if cprNLFunction lat0 ≠ cprNLFunction lat1 then none
    else
      let usesOdd : Bool := evenPos.EvenCPRTime < oddPos.OddCPRTime
      let lat : ℚ := if usesOdd then lat1 else lat0
      let ni : ℤ := cprN lat usesOdd
      if ni ≠ 0 then
        let m : ℤ := ⌊((evenPos.EvenCPRLon : ℚ) * ((cprNLFunction lat : ℤ) - 1 : ℤ)
            - (oddPos.OddCPRLon : ℚ) * ((cprNLFunction lat : ℤ) : ℚ)) / 131072 + 1/2⌋
        let lon : ℚ :=
          if usesOdd then cprDlon lat true * ((cprModFunction m ni : ℤ) + rlon1)
          else cprDlon lat false * ((cprModFunction m ni : ℤ) + rlon0)
        let lon : ℚ := if 180 < lon then lon - 360 else lon
        some (lat, lon)
      else none

end adsb
namespace map_system

/-- Source: `nl_table` in `map.go`'s adsb section — the 90-entry NL lookup
table indexed by rounded absolute latitude in degrees. -/
def nl_table : List ℤ :=
  [59, 59, 59, 59, 59, 59, 59, 59, 59, 58, 58, 58, 58, 58, 57, 57,
   57, 57, 57, 57, 56, 56, 56, 56, 56, 56, 55, 55, 55, 55, 55, 54, 54, 54, 54,
   54, 53, 53, 53, 53, 52, 52, 52, 52, 51, 51, 51, 51, 50, 50, 50, 49, 49, 49,
   48, 48, 48, 47, 47, 47, 46, 46, 46, 45, 45, 44, 44, 44, 43, 43, 42, 42, 41,
   41, 41, 40, 40, 39, 39, 38, 38, 37, 37, 36, 36, 35, 35, 34, 34, 33]

/-- Source: `cprModFunction` in `map.go`'s adsb section (same code as the
`adsb` package's copy). -/
def cprModFunction (a b : ℤ) : ℤ :=
  let res := a.tmod b
  if res < 0 then res + b else res

/-- Source: `cprNLFunction` in `map.go`'s adsb section — table lookup by
`math.Round` of the absolute latitude.  `math.Round` rounds half away from
zero; on the nonnegative values reached here it is `⌊lat + 1/2⌋`. -/
def cprNLFunction (lat : ℚ) : ℤ :=
  let lat := if lat < 0 then -lat else lat
  let lat : ℤ := ⌊lat + 1/2⌋
  if 90 ≤ lat then 1
  else nl_table.getD lat.toNat 0

/-- Source: `cprNFunction` in `map.go`'s adsb section. -/
def cprNFunction (lat : ℚ) (odd : Bool) : ℤ :=
  let nl := cprNLFunction lat
  if odd then nl - 1 else nl

/-- Source: `cprDlonFunction` in `map.go`'s adsb section. -/
def cprDlonFunction (lat : ℚ) (odd surface : Bool) : ℚ :=
  if surface then 90 / ((cprNFunction lat odd : ℤ) : ℚ)
  else 360 / ((cprNFunction lat odd : ℤ) : ℚ)

/-- Source: `DecodeCPRPosition` in `map.go`'s adsb section — the variant
taking raw CPR fields and a `lastOdd` flag (the 10-second window check lives
in its caller `processModeS`). -/
def DecodeCPRPosition (evenLat evenLon oddLat oddLon : ℤ) (lastOdd : Bool) :
    Option (ℚ × ℚ) :=
  let airDlat0 : ℚ := 360 / 60
  let airDlat1 : ℚ := 360 / 59
  let rlat0 : ℚ := (evenLat : ℚ) / 131072
  let rlat1 : ℚ := (oddLat : ℚ) / 131072
  let rlon0 : ℚ := (evenLon : ℚ) / 131072
  let rlon1 : ℚ := (oddLon : ℚ) / 131072
  let j : ℤ := ⌊(59 * rlat0 - 60 * rlat1) / 1 + 1/2⌋
  let lat0 : ℚ := airDlat0 * ((cprModFunction j 60 : ℤ) + rlat0)
  let lat1 : ℚ := airDlat1 * ((cprModFunction j 59 : ℤ) + rlat1)
  let lat0 : ℚ := if 270 ≤ lat0 then lat0 - 360 else lat0
  let lat1 : ℚ := if 270 ≤ lat1 then lat1 - 360 else lat1
  if cprNLFunction lat0 ≠ cprNLFunction lat1 then none
  else
    let lat : ℚ := if lastOdd then lat1 else lat0
    if lat < -90 ∨ 90 < lat then none
    else
      let m : ℤ := ⌊(rlon0 * ((cprNLFunction lat : ℤ) - 1 : ℤ)
          - rlon1 * ((cprNLFunction lat : ℤ) : ℚ)) / 1 + 1/2⌋
      if lastOdd then
        let ni := cprNFunction lat true
        if ni = 0 then none
        else
          let lon : ℚ := cprDlonFunction lat true false * ((cprModFunction m ni : ℤ) + rlon1)
          let lon : ℚ := if 180 < lon then lon - 360 else lon
          some (lat, lon)
      else
        let ni := cprNFunction lat false
        if ni = 0 then none
        else
          let lon : ℚ := cprDlonFunction lat false false * ((cprModFunction m ni : ℤ) + rlon0)
          let lon : ℚ := if 180 < lon then lon - 360 else lon
          some (lat, lon)

/-- Source: `DecodeAltitude` in `map.go`'s adsb section — the 12-bit AC
altitude field extracted from bytes 5 and 6 of a DF17/18 airborne-position
payload; Gillham-coded (Q-bit clear) values are not decoded and give 0. -/
def DecodeAltitude (data : List ℕ) : ℤ :=
  if data.length < 7 then 0
  else
    let ac12Field := ((data.getD 5 0 &&& 0x1F) <<< 7) ||| ((data.getD 6 0 &&& 0xFE) >>> 1)
    if ac12Field &&& 0x10 ≠ 0 then
      let n := ((ac12Field &&& 0x0FE0) >>> 1) ||| (ac12Field &&& 0x000F)
      (n : ℤ) * 25 - 1000
    else 0

end map_system

/-- The ICAO six-bit identification character set, as a list of characters
(source: the `charset` string literal in `decodeAircraftID` and
`DecodeCallsign`). -/
def icaoCharset : List Char :=
  "?ABCDEFGHIJKLMNOPQRSTUVWXYZ????? ???????????????0123456789??????".toList

/-- The trailing-space trim loop shared by `decodeAircraftID` and
`DecodeCallsign` (`i := 7; while i ≥ 0 ∧ result[i] = ' ' do i := i - 1;
return result[:i+1]`). -/
def trimTrailingSpaces (cs : List Char) : List Char :=
  (cs.reverse.dropWhile (fun c => c = ' ')).reverse

namespace adsb

/-- Source: `decodeAircraftID` in the `adsb` package: two 24-bit big-endian
words are assembled from the six payload bytes and split into eight 6-bit
character indices. -/
def decodeAircraftID (data : List ℕ) : List Char :=
  if data.length < 6 then []
  else
    let bits1 := ((data.getD 0 0) <<< 16) ||| ((data.getD 1 0) <<< 8) ||| data.getD 2 0
    let bits2 := ((data.getD 3 0) <<< 16) ||| ((data.getD 4 0) <<< 8) ||| data.getD 5 0
    let idx : List ℕ :=
      [bits1 >>> 18 &&& 0x3F, bits1 >>> 12 &&& 0x3F, bits1 >>> 6 &&& 0x3F, bits1 &&& 0x3F,
       bits2 >>> 18 &&& 0x3F, bits2 >>> 12 &&& 0x3F, bits2 >>> 6 &&& 0x3F, bits2 &&& 0x3F]
    trimTrailingSpaces (idx.map (fun g => icaoCharset.getD g '?'))

/-- Source: `gillhamToAltitude` in the `adsb` package — the placeholder
"Gillham" conversion (`return code * 100`). -/
def gillhamToAltitude (code : ℕ) : ℤ :=
  (code : ℤ) * 100

/-- Source: `decodeAC12Field` in the `adsb` package. -/
def decodeAC12Field (ac12Field : ℕ) : ℤ :=
  if ac12Field = 0 then 0
  else
    let qBit := ac12Field &&& 0x10
    if qBit ≠ 0 then
      let n := ((ac12Field &&& 0x0FE0) >>> 1) ||| (ac12Field &&& 0x000F)
      (n : ℤ) * 25 - 1000
    else gillhamToAltitude ac12Field

/-- Source: `decodeAC13Field` in the `adsb` package. -/
def decodeAC13Field (ac13Field : ℕ) : ℤ :=
  if ac13Field = 0 then 0
  else
    let mBit := ac13Field &&& 0x0040
    if mBit = 0 then
      let qBit := ac13Field &&& 0x0010
      if qBit ≠ 0 then
        let n := ((ac13Field &&& 0x1F80) >>> 2) ||| ((ac13Field &&& 0x0020) >>> 1)
          ||| (ac13Field &&& 0x000F)
        (n : ℤ) * 25 - 1000
      else gillhamToAltitude ac13Field
    else 0

/-- Source: `decodeID13Field` in the `adsb` package. -/
def decodeID13Field (id13Field : ℕ) : ℕ :=
  let f (mask : ℕ) (bit : ℕ) (acc : ℕ) : ℕ :=
    if id13Field &&& mask ≠ 0 then acc ||| bit else acc
  f 0x1000 0x0010 (f 0x0800 0x1000 (f 0x0400 0x0020 (f 0x0200 0x2000
    (f 0x0100 0x0040 (f 0x0080 0x4000 (f 0x0020 0x0100 (f 0x0010 0x0001
      (f 0x0008 0x0200 (f 0x0004 0x0002 (f 0x0002 0x0400 (f 0x0001 0x0004 0)))))))))))

/-- Source: `decodeGroundMovement` in the `adsb` package (exponential scale;
the argument is the nonnegative 7-bit movement code). -/
def decodeGroundMovement (movement : ℕ) : ℕ :=
  if movement = 0 ∨ 125 ≤ movement then 0
  else if 123 < movement then 199
  else if 108 < movement then (movement - 108) * 5 + 100
  else if 93 < movement then (movement - 93) * 2 + 70
  else if 38 < movement then (movement - 38) + 15
  else if 12 < movement then ((movement - 11) >>> 1) + 2
  else if 8 < movement then ((movement - 6) >>> 2) + 1
  else 0

end adsb

namespace map_system

/-- Source: `DecodeCallsign` in `map.go`'s adsb section — same algorithm as
`adsb.decodeAircraftID` with 32-bit instead of 64-bit intermediate words
(no value here approaches either width). -/
def DecodeCallsign (data : List ℕ) : List Char :=
  if data.length < 6 then []
  else
    let bits1 := ((data.getD 0 0) <<< 16) ||| ((data.getD 1 0) <<< 8) ||| data.getD 2 0
    let bits2 := ((data.getD 3 0) <<< 16) ||| ((data.getD 4 0) <<< 8) ||| data.getD 5 0
    let callsign : List ℕ :=
      [bits1 >>> 18 &&& 0x3F, bits1 >>> 12 &&& 0x3F, bits1 >>> 6 &&& 0x3F, bits1 &&& 0x3F,
       bits2 >>> 18 &&& 0x3F, bits2 >>> 12 &&& 0x3F, bits2 >>> 6 &&& 0x3F, bits2 &&& 0x3F]
    trimTrailingSpaces (callsign.map (fun g => icaoCharset.getD g '?'))

end map_system

namespace adsb

/-- The type-code dispatch of `DecodeMessage`'s DF17/DF18 branch (the inner
`switch` over `msg.TypeCode`), updating the partially filled message.
`sqrtInt`/`atan2Deg` are the floating-point oracles for `int(math.Sqrt ...)`
and `int(math.Round(math.Atan2 ... * 180 / math.Pi))`. -/
def decodeESFields (sqrtInt : ℤ → ℤ) (atan2Deg : ℤ → ℤ → ℤ)
    (data : List ℕ) (msg : Message) : Message :=
  if 1 ≤ msg.TypeCode ∧ msg.TypeCode ≤ 4 then
    { msg with Flight := decodeAircraftID ((data.drop 5).take 6) }
  else if 5 ≤ msg.TypeCode ∧ msg.TypeCode ≤ 8 then
    let m1 :=
      { msg with
        OnGround := true,
        RawLat := ((data.getD 6 0 &&& 0x03) <<< 15) ||| (data.getD 7 0 <<< 7) ||| (data.getD 8 0 >>> 1),
        RawLon := ((data.getD 8 0 &&& 0x01) <<< 16) ||| (data.getD 9 0 <<< 8) ||| data.getD 10 0,
        OddFlag := data.getD 6 0 &&& 0x04 ≠ 0 }
    let movement := ((data.getD 4 0 &&& 0x07) <<< 4) ||| (data.getD 5 0 >>> 4)
    let m2 :=
      if 0 < movement ∧ movement < 125 then
        { m1 with Speed := (decodeGroundMovement movement : ℤ) }
      else m1
    if data.getD 5 0 &&& 0x08 ≠ 0 then
      { m2 with Heading := (((((data.getD 5 0 &&& 0x07) <<< 4) ||| (data.getD 6 0 >>> 4)) * 45) >>> 4 : ℕ) }
    else m2
  else if 9 ≤ msg.TypeCode ∧ msg.TypeCode ≤ 18 then
    { msg with
      Altitude := decodeAC12Field ((data.getD 5 0 <<< 4) ||| (data.getD 6 0 >>> 4)),
      RawLat := ((data.getD 6 0 &&& 0x03) <<< 15) ||| (data.getD 7 0 <<< 7) ||| (data.getD 8 0 >>> 1),
      RawLon := ((data.getD 8 0 &&& 0x01) <<< 16) ||| (data.getD 9 0 <<< 8) ||| data.getD 10 0,
      OddFlag := data.getD 6 0 &&& 0x04 ≠ 0 }
  else if msg.TypeCode = 19 then
    let subtype := data.getD 4 0 &&& 0x07
    if subtype = 1 ∨ subtype = 2 then
      let ewSign := (data.getD 5 0 &&& 0x04) >>> 2
      let ewVel0 : ℤ := (((data.getD 5 0 &&& 0x03) <<< 8) ||| data.getD 6 0 : ℕ)
      let nsSign := (data.getD 7 0 &&& 0x80) >>> 7
      let nsVel0 : ℤ := (((data.getD 7 0 &&& 0x7F) <<< 3) ||| (data.getD 8 0 >>> 5) : ℕ)
      let ewVel : ℤ := if 0 < ewVel0 then
          (if ewSign ≠ 0 then -(ewVel0 - 1) else ewVel0 - 1) else ewVel0
      let nsVel : ℤ := if 0 < nsVel0 then
          (if nsSign ≠ 0 then -(nsVel0 - 1) else nsVel0 - 1) else nsVel0
      let ewVel : ℤ := if subtype = 2 then ewVel * 4 else ewVel
      let nsVel : ℤ := if subtype = 2 then nsVel * 4 else nsVel
      let m1 := if ewVel ≠ 0 ∨ nsVel ≠ 0 then
          let hdg := atan2Deg ewVel nsVel
          { msg with
            Speed := sqrtInt (ewVel * ewVel + nsVel * nsVel),
            Heading := if hdg < 0 then hdg + 360 else hdg }
        else msg
      let vRateSign := (data.getD 8 0 &&& 0x08) >>> 3
      let vRateData : ℤ := (((data.getD 8 0 &&& 0x07) <<< 6) ||| (data.getD 9 0 >>> 2) : ℕ)
      if vRateData ≠ 0 then
        { m1 with VertRate := if vRateSign ≠ 0 then -((vRateData - 1) * 64) else (vRateData - 1) * 64 }
      else m1
    else if subtype = 3 ∨ subtype = 4 then
      let airspeed : ℤ := (((data.getD 7 0 &&& 0x7F) <<< 3) ||| (data.getD 8 0 >>> 5) : ℕ)
      let m1 := if 0 < airspeed then
          { msg with Speed := if subtype = 4 then (airspeed - 1) * 4 else airspeed - 1 }
        else msg
      let m2 := if data.getD 5 0 &&& 0x04 ≠ 0 then
          { m1 with Heading := (((((data.getD 5 0 &&& 0x03) <<< 8) ||| data.getD 6 0) * 45) >>> 7 : ℕ) }
        else m1
      let vRateSign := (data.getD 8 0 &&& 0x08) >>> 3
      let vRateData : ℤ := (((data.getD 8 0 &&& 0x07) <<< 6) ||| (data.getD 9 0 >>> 2) : ℕ)
      if vRateData ≠ 0 then
        { m2 with VertRate := if vRateSign ≠ 0 then -((vRateData - 1) * 64) else (vRateData - 1) * 64 }
      else m2
    else msg
  else msg

/-- Source: `DecodeMessage` in the `adsb` package.  `none` is the Go `nil`
return (message abandoned); unmatched downlink formats fall through the
`switch` and return the partially filled message, as in the source. -/
def DecodeMessage (sqrtInt : ℤ → ℤ) (atan2Deg : ℤ → ℤ → ℤ)
    (data : List ℕ) (timestamp : ℤ) : Option Message :=
  if data.length < 2 then none
  else
    let df := data.getD 0 0 >>> 3
    let msg : Message := { emptyMessage with DF := df, Timestamp := timestamp, Valid := true }
    if df = 0 ∨ df = 16 then
      if data.length < 2 then none
      else some { msg with OnGround := data.getD 0 0 &&& 0x04 ≠ 0 }
    else if df = 4 ∨ df = 20 then
      if data.length < 4 then none
      else
        let fs := data.getD 0 0 &&& 0x07
        some
          { msg with
            FS := fs,
            Altitude := decodeAC13Field ((data.getD 2 0 <<< 8) ||| data.getD 3 0),
            OnGround := fs &&& 0x01 ≠ 0 }
    else if df = 5 ∨ df = 21 then
      if data.length < 4 then none
      else
        let fs := data.getD 0 0 &&& 0x07
        some
          { msg with
            FS := fs,
            ModeA := decodeID13Field ((data.getD 2 0 <<< 8) ||| data.getD 3 0),
            OnGround := fs &&& 0x01 ≠ 0 }
    else if df = 11 then
      if data.length < 4 then none
      else
        let ca := data.getD 0 0 &&& 0x07
        some
          { msg with
            CA := ca,
            ICAO := (data.getD 1 0 <<< 16) ||| (data.getD 2 0 <<< 8) ||| data.getD 3 0,
            OnGround := if ca = 4 then false else if ca = 5 then true else msg.OnGround }
    else if df = 17 ∨ df = 18 then
      if data.length < 14 then none
      else
        let m1 :=
          if df = 17 then
            let ca := data.getD 0 0 &&& 0x07
            { msg with
              CA := ca,
              OnGround := if ca = 4 then true else if ca = 5 then false else msg.OnGround }
          else { msg with CF := data.getD 0 0 &&& 0x07 }
        let m2 :=
          { m1 with
            ICAO := (data.getD 1 0 <<< 16) ||| (data.getD 2 0 <<< 8) ||| data.getD 3 0,
            TypeCode := data.getD 4 0 >>> 3,
            SubType := data.getD 4 0 &&& 0x07 }
        some (decodeESFields sqrtInt atan2Deg data m2)
    else some msg

/-- Source: `addToTrail` in the `adsb` package (and the identical inline
trail update in `app.go`'s `processModeS`).  The capacity is the
`TrailLength` constant / `config.TrailLength` value; `now` is the sampled
`time.Now()`. -/
def addToTrail (cap : ℕ) (aircraft : Aircraft) (lat lon : ℚ) (now : ℤ) : Aircraft :=
  let pos : Position :=
    { Lat := lat, Lon := lon, Altitude := aircraft.Altitude,
      Heading := aircraft.Heading, Timestamp := now }
  let trail := if cap ≤ aircraft.Trail.length then aircraft.Trail.drop 1 else aircraft.Trail
  { aircraft with Trail := trail ++ [pos] }

/-- The aircraft store: `map[uint32]*Aircraft` as a function from ICAO keys. -/
def AircraftMap : Type := ℕ → Option Aircraft

/-- Source: `GetOrCreate` in the `adsb` package.  Returns the (possibly
fresh) track and the updated store; `now` is the sampled `time.Now()` used
to initialize `Seen` of a fresh track. -/
def GetOrCreate (am : AircraftMap) (icao : ℕ) (now : ℤ) : Aircraft × AircraftMap :=
  match am icao with
  | some aircraft => (aircraft, am)
  | none =>
    let aircraft : Aircraft :=
      { ICAO := icao, Flight := [], Altitude := 0, Speed := 0, Heading := 0,
        VertRate := 0, Lat := 0, Lon := 0, Seen := now, SeenLatLon := 0,
        OnGround := false, EvenCPRLat := 0, EvenCPRLon := 0, OddCPRLat := 0,
        OddCPRLon := 0, EvenCPRTime := 0, OddCPRTime := 0, Trail := [] }
    (aircraft, fun k => if k = icao then some aircraft else am k)

/-- Source: `RemoveStale` in the `adsb` package: every entry whose age
`now - Seen` exceeds `ttl` is deleted by the sweep loop. -/
def RemoveStale (am : AircraftMap) (now ttl : ℤ) : AircraftMap :=
  fun icao =>
    match am icao with
    | some aircraft => if ttl < now - aircraft.Seen then none else some aircraft
    | none => none

end adsb

namespace mockserver

/-- Source: `EscapeChar` in the mock Beast server (`part_000`). -/
def EscapeChar : ℕ := 0x1A

/-- Source: `ModeAC` frame tag byte `'1'`. -/
def ModeAC : ℕ := 0x31

/-- Source: `ModeShort` frame tag byte `'2'`. -/
def ModeShort : ℕ := 0x32

/-- Source: `ModeLong` frame tag byte `'3'`. -/
def ModeLong : ℕ := 0x33

/-- The byte-stuffing step of `encodeBeastMessage`: append the byte and, if
it equals the escape byte, append it a second time. -/
def stuffByte (b : ℕ) : List ℕ :=
  if b = EscapeChar then [b, b] else [b]

/-- Byte-stuffing applied to a whole field, as done byte-by-byte by the
encoder loops. -/
def stuffBytes : List ℕ → List ℕ
  | [] => []
  | b :: rest => stuffByte b ++ stuffBytes rest

/-- The 6-byte big-endian timestamp serialization of `encodeBeastMessage`
(`for i := 5; i >= 0; i-- { byte((timestamp >> (8*i)) & 0xFF) }`). -/
def timestampBytes (timestamp : ℕ) : List ℕ :=
  [timestamp >>> 40 &&& 0xFF, timestamp >>> 32 &&& 0xFF, timestamp >>> 24 &&& 0xFF,
   timestamp >>> 16 &&& 0xFF, timestamp >>> 8 &&& 0xFF, timestamp &&& 0xFF]

/-- Source: `encodeBeastMessage` in the mock Beast server (`part_000`). -/
def encodeBeastMessage (msgType : ℕ) (data : List ℕ) (timestamp : ℕ) (signalLevel : ℕ) :
    List ℕ :=
  [EscapeChar, msgType] ++ stuffBytes (timestampBytes timestamp)
    ++ stuffByte signalLevel ++ stuffBytes data

end mockserver

namespace beast

/-- A decoded Beast frame: kind tag, 48-bit timestamp, signal level, payload
(spec §4.2 `Frame`). -/
structure BeastFrame where
  msgType : ℕ
  timestamp : ℕ
  signalLevel : ℕ
  data : List ℕ
deriving DecidableEq, Repr

/-- Modelled from the spec: the payload length fixed by the frame kind byte
(§4.1: 2 bytes for a short surveillance frame, 7 for a short Mode-S frame,
14 for a long Mode-S frame); the `internal/beast` decoder package itself is
not part of the sources. -/
def payloadLen (msgType : ℕ) : Option ℕ :=
  if msgType = mockserver.ModeAC then some 2
  else if msgType = mockserver.ModeShort then some 7
  else if msgType = mockserver.ModeLong then some 14
  else none

/-- Modelled from the spec: reading `n` byte-stuffed bytes (§4.1: a doubled
escape byte inside a field is one data byte; a single escape byte where
field data is expected is not field data).  Returns the field and the rest
of the stream. -/
def readStuffed : ℕ → List ℕ → Option (List ℕ × List ℕ)
  | 0, s => some ([], s)
  | _ + 1, [] => none
  | n + 1, b :: rest =>
    if b = mockserver.EscapeChar then
      match rest with
      | [] => none
      | c :: rest2 =>
        if c = mockserver.EscapeChar then
          (readStuffed n rest2).map (fun p => (mockserver.EscapeChar :: p.1, p.2))
        else none
    else (readStuffed n rest).map (fun p => (b :: p.1, p.2))

/-- Big-endian byte recombination for the 6-byte timestamp. -/
def fromBE (l : List ℕ) : ℕ :=
  l.foldl (fun acc b => acc * 256 + b) 0

/-- Modelled from the spec: the `internal/beast` frame decoder
(`ReadMessage`) on a byte stream — an escape byte, the kind byte, then the
byte-stuffed 6-byte big-endian timestamp, signal level and fixed-length
payload (§4.1).  Returns the decoded frame and the remaining stream. -/
def decodeBeastMessage (s : List ℕ) : Option (BeastFrame × List ℕ) :=
  match s with
  | esc :: t :: rest =>
    if esc = mockserver.EscapeChar then
      match payloadLen t with
      | some plen =>
        match readStuffed 6 rest with
        | some (tsBytes, rest1) =>
          match readStuffed 1 rest1 with
          | some (sigBytes, rest2) =>
            match readStuffed plen rest2 with
            | some (payload, rest3) =>
              some ({ msgType := t, timestamp := fromBE tsBytes,
                      signalLevel := sigBytes.getD 0 0, data := payload }, rest3)
            | none => none
          | none => none
        | none => none
      | none => none
    else none
  | _ => none

end beast

/-- Spec-side description of the callsign decode (§4.2): the eight 6-bit
groups of the 48-bit identification field, read in order across byte
boundaries, mapped through the ICAO character set, with trailing spaces
trimmed. -/
def callsignSpec (b0 b1 b2 b3 b4 b5 : ℕ) : List Char :=
  trimTrailingSpaces
    ([b0 / 4, b0 % 4 * 16 + b1 / 16, b1 % 16 * 4 + b2 / 64, b2 % 64,
      b3 / 4, b3 % 4 * 16 + b4 / 16, b4 % 16 * 4 + b5 / 64, b5 % 64].map
      (fun g => icaoCharset.getD g '?'))

/-- An all-zero aircraft record (Go's zero value of `Aircraft`). -/
def zeroAircraft : Aircraft :=
  { ICAO := 0, Flight := [], Altitude := 0, Speed := 0, Heading := 0,
    VertRate := 0, Lat := 0, Lon := 0, Seen := 0, SeenLatLon := 0,
    OnGround := false, EvenCPRLat := 0, EvenCPRLon := 0, OddCPRLat := 0,
    OddCPRLon := 0, EvenCPRTime := 0, OddCPRTime := 0, Trail := [] }

/-- The canonical CPR worked example of the ADS-B specification: even raw
latitude 93000 and longitude 51372, odd raw latitude 74158 and longitude
50194, received at times `te` and `to` (milliseconds). -/
def cprExample (te td : ℤ) : Aircraft :=
  { zeroAircraft with
    EvenCPRLat := 93000, EvenCPRLon := 51372,
    OddCPRLat := 74158, OddCPRLon := 50194,
    EvenCPRTime := te, OddCPRTime := td }

/-- One trail append step, as invoked per resolved position: the input triple
is the resolved latitude, longitude, and the `time.Now()` sample. -/
def adsb.trailStep (cap : ℕ) (ac : Aircraft) (p : ℚ × ℚ × ℤ) : Aircraft :=
  adsb.addToTrail cap ac p.1 p.2.1 p.2.2

/-- The `Position` record that `addToTrail` constructs for an append input. -/
def adsb.trailPosOf (a : Aircraft) (p : ℚ × ℚ × ℤ) : Position :=
  { Lat := p.1, Lon := p.2.1, Altitude := a.Altitude,
    Heading := a.Heading, Timestamp := p.2.2 }

section BitLemmas

/-- Concatenation of disjoint bit ranges: `(a <<< k) ||| b` is `a * 2^k + b`
when `b` fits in `k` bits. -/
theorem shiftLeft_lor_eq_add (a b k : ℕ) (h : b < 2 ^ k) :
    (a <<< k) ||| b = a * 2 ^ k + b := by
  apply Nat.eq_of_testBit_eq
  intro i
  rw [Nat.testBit_lor, Nat.testBit_shiftLeft]
  have hadd : (a * 2 ^ k + b).testBit i = if i < k then b.testBit i else a.testBit (i - k) := by
    rw [Nat.mul_comm a (2 ^ k)]
    exact Nat.testBit_mul_pow_two_add a h i
  rw [hadd]
  rcases Nat.lt_or_ge i k with hik | hik
  · rw [if_pos hik]
    simp [Nat.not_le.mpr hik]
  · rw [if_neg (Nat.not_lt.mpr hik)]
    have hb : b.testBit i = false :=
      Nat.testBit_eq_false_of_lt (lt_of_lt_of_le h (Nat.pow_le_pow_right (by norm_num) hik))
    simp [hik, hb]

/-- A 24-bit big-endian word assembled from three bytes, in arithmetic form. -/
theorem word24_eq (b0 b1 b2 : ℕ) (h1 : b1 < 256) (h2 : b2 < 256) :
    (b0 <<< 16) ||| (b1 <<< 8) ||| b2 = b0 * 65536 + b1 * 256 + b2 := by
  have p8 : (2 : ℕ) ^ 8 = 256 := by norm_num
  have p16 : (2 : ℕ) ^ 16 = 65536 := by norm_num
  have hb : b1 <<< 8 < 2 ^ 16 := by
    rw [Nat.shiftLeft_eq, p8, p16]
    omega
  have e1 : (b0 <<< 16) ||| (b1 <<< 8) = b0 * 65536 + b1 * 256 := by
    rw [shiftLeft_lor_eq_add _ _ _ hb, Nat.shiftLeft_eq, p8, p16]
  have e2 : b0 * 65536 + b1 * 256 = (b0 * 256 + b1) <<< 8 := by
    rw [Nat.shiftLeft_eq, p8]
    ring
  have hb2 : b2 < 2 ^ 8 := by
    rw [p8]
    exact h2
  rw [e1, e2, shiftLeft_lor_eq_add _ _ _ hb2, Nat.shiftLeft_eq, p8]

/-- Extracting a 6-bit group by shift-and-mask, in arithmetic form. -/
theorem group6_eq (w i : ℕ) : w >>> i &&& 0x3F = w / 2 ^ i % 64 := by
  rw [Nat.shiftRight_eq_div_pow, show (0x3F : ℕ) = 2 ^ 6 - 1 from rfl,
    Nat.and_pow_two_sub_one_eq_mod]

end BitLemmas

/-- Claim C8: after a staleness sweep with TTL `t` at time `now`, every track
whose `last_seen` is older than `t` is absent from the store, and every track
within `t` remains with all of its fields unchanged. -/
theorem adsb.RemoveStale_spec (am : adsb.AircraftMap) (now ttl : ℤ) (icao : ℕ)
    (a : Aircraft) (h : am icao = some a) :
    (ttl < now - a.Seen → adsb.RemoveStale am now ttl icao = none) ∧
    (now - a.Seen ≤ ttl → adsb.RemoveStale am now ttl icao = some a) := by
  constructor <;> intro hc <;> simp only [adsb.RemoveStale, h]
  · rw [if_pos hc]
  · rw [if_neg (by omega)]

/-- Witness for C8: a store holding one stale track (seen at 50, swept at
time 100 with TTL 30) and one fresh track (seen at 90): the sweep removes
the stale one and keeps the fresh one unchanged. -/
theorem adsb.RemoveStale_spec_witness :
    adsb.RemoveStale
        (fun k => if k = 1 then some { zeroAircraft with Seen := 50 }
                  else if k = 2 then some { zeroAircraft with Seen := 90 } else none)
        100 30 1 = none ∧
    adsb.RemoveStale
        (fun k => if k = 1 then some { zeroAircraft with Seen := 50 }
                  else if k = 2 then some { zeroAircraft with Seen := 90 } else none)
        100 30 2 = some { zeroAircraft with Seen := 90 } := by
  constructor
  · exact (adsb.RemoveStale_spec _ 100 30 1 { zeroAircraft with Seen := 50 } rfl).1
      (by norm_num)
  · exact (adsb.RemoveStale_spec _ 100 30 2 { zeroAircraft with Seen := 90 } rfl).2
      (by norm_num)

/-- Claim C10: `GetOrCreate` is idempotent — a second call with the same ICAO
returns the same track as the first and leaves the store (hence its size and
every field of the existing track) unchanged. -/
theorem adsb.GetOrCreate_idempotent (am : adsb.AircraftMap) (icao : ℕ) (t1 t2 : ℤ) :
    adsb.GetOrCreate (adsb.GetOrCreate am icao t1).2 icao t2
      = adsb.GetOrCreate am icao t1 := by
  unfold adsb.GetOrCreate
  cases h : am icao with
  | some a => simp [h]
  | none => simp [h]

/-- Claim C2: any even/odd CPR pairing whose reception timestamps differ by
more than 10 seconds (10000 ms) is rejected as unresolved, regardless of the
raw field values. -/
theorem adsb.DecodeCPRPosition_stale (evenPos oddPos : Aircraft)
    (h : 10000 < |evenPos.EvenCPRTime - oddPos.OddCPRTime|) :
    adsb.DecodeCPRPosition evenPos oddPos = none := by
  unfold adsb.DecodeCPRPosition
  rcases em (evenPos.EvenCPRTime = 0 ∨ oddPos.OddCPRTime = 0) with h0 | h0
  · rw [if_pos h0]
  · rw [if_neg h0, if_pos h]

/-- Witness for C2: the canonical raw CPR values with timestamps 11 seconds
apart are rejected. -/
theorem adsb.DecodeCPRPosition_stale_witness :
    adsb.DecodeCPRPosition (cprExample 12000 1000) (cprExample 12000 1000) = none :=
  adsb.DecodeCPRPosition_stale _ _ (by norm_num [cprExample, zeroAircraft])

/-- Claim C5: the two NL implementations disagree — at latitude 52° the
threshold-chain `adsb.cprNLFunction` gives 36 while the lookup-table
`map_system.cprNLFunction` gives 49. -/
theorem cprNLFunction_implementations_disagree :
    ∃ lat : ℚ, -90 ≤ lat ∧ lat ≤ 90 ∧
      adsb.cprNLFunction lat ≠ map_system.cprNLFunction lat := by
  refine ⟨52, by norm_num, by norm_num, ?_⟩
  have h1 : adsb.cprNLFunction 52 = 36 := by
    norm_num [adsb.cprNLFunction]
  have h2 : map_system.cprNLFunction 52 = 49 := by
    have hf : (⌊(52 : ℚ) + 1/2⌋ : ℤ) = 52 := by
      norm_num [Int.floor_eq_iff]
    simp only [map_system.cprNLFunction]
    rw [if_neg (show ¬ (52 : ℚ) < 0 by norm_num), hf]
    decide
  rw [h1, h2]
  decide

/-- Both `Altitude` and `Heading` are invariant under trail appends, so the
positions recorded later in a fold still use the aircraft's kinematic
fields. -/
theorem adsb.trailStep_fields (cap : ℕ) (a : Aircraft) (p : ℚ × ℚ × ℤ) :
    (adsb.trailStep cap a p).Altitude = a.Altitude ∧
    (adsb.trailStep cap a p).Heading = a.Heading := by
  constructor <;> rfl

/-- The trail after a fold of appends over a bounded starting trail is the
suffix of the appended sequence that fits the capacity. -/
theorem adsb.trailStep_foldl (cap : ℕ) (hcap : 1 ≤ cap) :
    ∀ (ps : List (ℚ × ℚ × ℤ)) (a : Aircraft), a.Trail.length ≤ cap →
      (ps.foldl (adsb.trailStep cap) a).Trail
        = (a.Trail ++ ps.map (adsb.trailPosOf a)).drop
            (a.Trail.length + ps.length - cap) := by
  intro ps
  induction ps with
  | nil =>
    intro a ha
    simp [Nat.sub_eq_zero_of_le ha]
  | cons p ps ih =>
    intro a ha
    rw [List.foldl_cons]
    have hstep : (adsb.trailStep cap a p).Trail
        = (if cap ≤ a.Trail.length then a.Trail.drop 1 else a.Trail)
            ++ [adsb.trailPosOf a p] := rfl
    have hfields : adsb.trailPosOf (adsb.trailStep cap a p) = adsb.trailPosOf a := by
      funext q
      simp [adsb.trailPosOf, adsb.trailStep, adsb.addToTrail]
    rcases Nat.lt_or_ge a.Trail.length cap with hlt | hge
    · have hnotle : ¬ cap ≤ a.Trail.length := Nat.not_le.mpr hlt
      have hlen : (adsb.trailStep cap a p).Trail.length ≤ cap := by
        rw [hstep, if_neg hnotle]
        simp only [List.length_append, List.length_cons, List.length_nil]
        omega
      have := ih (adsb.trailStep cap a p) hlen
      rw [hfields] at this
      rw [this, hstep, if_neg hnotle]
      rw [List.append_assoc]
      simp only [List.length_append, List.length_cons, List.length_nil, List.map_cons,
        List.singleton_append]
      congr 1
      omega
    · have hle : cap ≤ a.Trail.length := hge
      have heq : a.Trail.length = cap := Nat.le_antisymm ha hge
      have hlen1 : (a.Trail.drop 1 ++ [adsb.trailPosOf a p]).length = cap := by
        simp only [List.length_append, List.length_drop, List.length_cons, List.length_nil]
        omega
      have hlen : (adsb.trailStep cap a p).Trail.length ≤ cap := by
        rw [hstep, if_pos hle, hlen1]
      have hrec := ih (adsb.trailStep cap a p) hlen
      rw [hfields, hstep, if_pos hle, hlen1] at hrec
      rw [hrec]
      have harith : cap + ps.length - cap = ps.length := by omega
      rw [harith]
      have hX : (a.Trail.drop 1 ++ [adsb.trailPosOf a p]) ++ ps.map (adsb.trailPosOf a)
          = List.drop 1 (a.Trail ++ adsb.trailPosOf a p :: ps.map (adsb.trailPosOf a)) := by
        rw [List.append_assoc, List.singleton_append,
          List.drop_append_of_le_length (by omega)]
      rw [hX, List.drop_drop]
      simp only [List.map_cons, List.length_cons]
      congr 1
      omega

/-- Claim C7: appending more than the configured trail capacity of positions
leaves the trail with exactly `cap` entries, the oldest entries discarded
first (the trail is the final suffix of the appended sequence) and the most
recently appended position last. -/
theorem adsb.addToTrail_bound (cap : ℕ) (hcap : 1 ≤ cap) (a : Aircraft)
    (ha : a.Trail.length ≤ cap) (ps : List (ℚ × ℚ × ℤ)) (hps : cap < ps.length) :
    (ps.foldl (adsb.trailStep cap) a).Trail
        = (a.Trail ++ ps.map (adsb.trailPosOf a)).drop
            (a.Trail.length + ps.length - cap) ∧
    (ps.foldl (adsb.trailStep cap) a).Trail.length = cap ∧
    (ps.foldl (adsb.trailStep cap) a).Trail.getLast?
        = (ps.map (adsb.trailPosOf a)).getLast? := by
  have hmain := adsb.trailStep_foldl cap hcap ps a ha
  refine ⟨hmain, ?_, ?_⟩
  · rw [hmain, List.length_drop, List.length_append, List.length_map]
    omega
  · rw [hmain]
    rcases List.eq_nil_or_concat ps with hnil | ⟨qs, q, hq⟩
    · subst hnil
      exact absurd hps (by simp)
    · subst hq
      simp only [List.concat_eq_append, List.map_append, List.map_cons, List.map_nil,
        List.length_append, List.length_cons, List.length_nil]
      rw [← List.append_assoc]
      rw [List.drop_append_of_le_length
        (by simp only [List.length_append, List.length_map]; omega)]
      rw [List.getLast?_concat, List.getLast?_concat]

/-- Witness for C7: with capacity 2, appending three positions to an empty
trail leaves exactly 2 entries with the last-appended position last. -/
theorem adsb.addToTrail_bound_witness :
    (([(1, 1, 1), (2, 2, 2), (3, 3, 3)] : List (ℚ × ℚ × ℤ)).foldl
        (adsb.trailStep 2) zeroAircraft).Trail.length = 2 ∧
    (([(1, 1, 1), (2, 2, 2), (3, 3, 3)] : List (ℚ × ℚ × ℤ)).foldl
        (adsb.trailStep 2) zeroAircraft).Trail.getLast?
      = some (adsb.trailPosOf zeroAircraft (3, 3, 3)) := by
  have h := adsb.addToTrail_bound 2 (by norm_num) zeroAircraft (by decide)
    [(1, 1, 1), (2, 2, 2), (3, 3, 3)] (by norm_num)
  refine ⟨h.2.1, ?_⟩
  rw [h.2.2]
  rfl

set_option maxRecDepth 8000 in
/-- Exhaustive check of the altitude decoders over one 256-value block of the
12-bit field space (the 16 blocks together cover all 4096 fields). -/
theorem altitude_q_aux : ∀ hi : ℕ, hi < 16 → ∀ lo : ℕ, lo < 256 →
    ((256 * hi + lo) &&& 0x10 ≠ 0 →
      adsb.decodeAC12Field (256 * hi + lo)
        = ((16 * ((256 * hi + lo) / 32) + (256 * hi + lo) % 16 : ℕ) : ℤ) * 25 - 1000 ∧
      map_system.DecodeAltitude
          [0, 0, 0, 0, 0, (256 * hi + lo) / 128, (256 * hi + lo) % 128 * 2]
        = ((16 * ((256 * hi + lo) / 32) + (256 * hi + lo) % 16 : ℕ) : ℤ) * 25 - 1000) ∧
    ((256 * hi + lo) &&& 0x10 = 0 →
      map_system.DecodeAltitude
          [0, 0, 0, 0, 0, (256 * hi + lo) / 128, (256 * hi + lo) % 128 * 2] = 0 ∧
      adsb.decodeAC12Field (256 * hi + lo) = ((256 * hi + lo : ℕ) : ℤ) * 100) := by
  decide

/-- Counterexample for C3: the 12-bit field 1 has the Q-bit clear, and the
`adsb` package's 12-bit altitude decoder returns 100 (the `gillhamToAltitude`
placeholder `code * 100`), not 0 as the claim states. -/
theorem decodeAC12Field_qclear_counterexample :
    1 &&& 0x10 = 0 ∧ adsb.decodeAC12Field 1 = 100 ∧ adsb.decodeAC12Field 1 ≠ 0 := by
  decide

/-- Claim C3 (amended): for every 12-bit altitude field with the Q-bit
(0x10) set, both altitude decoders return `N × 25 − 1000` feet where `N` is
the field with the Q-bit removed; with the Q-bit clear, the `map_system`
decoder `DecodeAltitude` returns 0 (Gillham coding not decoded), while the
`adsb` package's `decodeAC12Field` instead returns the raw field × 100
through its placeholder Gillham conversion.  (`DecodeAltitude` is applied to
a payload whose bytes 5 and 6 carry the field.) -/
theorem altitude_qbit_decode : ∀ f : ℕ, f < 4096 →
    (f &&& 0x10 ≠ 0 →
      adsb.decodeAC12Field f = ((16 * (f / 32) + f % 16 : ℕ) : ℤ) * 25 - 1000 ∧
      map_system.DecodeAltitude [0, 0, 0, 0, 0, f / 128, f % 128 * 2]
        = ((16 * (f / 32) + f % 16 : ℕ) : ℤ) * 25 - 1000) ∧
    (f &&& 0x10 = 0 →
      map_system.DecodeAltitude [0, 0, 0, 0, 0, f / 128, f % 128 * 2] = 0 ∧
      adsb.decodeAC12Field f = (f : ℤ) * 100) := by
  intro f hf
  have h := altitude_q_aux (f / 256) (by omega) (f % 256) (by omega)
  rwa [Nat.div_add_mod f 256] at h

/-- Witness for C3: the field 212 (Q-bit set, N = 100) decodes to 1500 feet
in both decoders. -/
theorem altitude_qbit_decode_witness :
    adsb.decodeAC12Field 212 = 1500 ∧
    map_system.DecodeAltitude [0, 0, 0, 0, 0, 212 / 128, 212 % 128 * 2] = 1500 := by
  have h := (altitude_qbit_decode 212 (by norm_num)).1 (by decide)
  constructor
  · rw [h.1]
    norm_num
  · rw [h.2]
    norm_num

/-- `w &&& 0x3F` in arithmetic form. -/
theorem and63_eq (w : ℕ) : w &&& 0x3F = w % 64 := by
  rw [show (0x3F : ℕ) = 2 ^ 6 - 1 from rfl, Nat.and_pow_two_sub_one_eq_mod]

/-- Claim C6: for every 6-byte identification payload, both callsign
decoders map each of the eight 6-bit groups of the 48-bit field through the
ICAO character set and trim trailing spaces. -/
theorem callsign_decode (b0 b1 b2 b3 b4 b5 : ℕ)
    (h0 : b0 < 256) (h1 : b1 < 256) (h2 : b2 < 256)
    (h3 : b3 < 256) (h4 : b4 < 256) (h5 : b5 < 256) :
    adsb.decodeAircraftID [b0, b1, b2, b3, b4, b5] = callsignSpec b0 b1 b2 b3 b4 b5 ∧
    map_system.DecodeCallsign [b0, b1, b2, b3, b4, b5] = callsignSpec b0 b1 b2 b3 b4 b5 := by
  have hp18 : (2 : ℕ) ^ 18 = 262144 := by norm_num
  have hp12 : (2 : ℕ) ^ 12 = 4096 := by norm_num
  have hp6 : (2 : ℕ) ^ 6 = 64 := by norm_num
  have g0 : (b0 * 65536 + b1 * 256 + b2) / 2 ^ 18 % 64 = b0 / 4 := by
    rw [hp18]; omega
  have g1 : (b0 * 65536 + b1 * 256 + b2) / 2 ^ 12 % 64 = b0 % 4 * 16 + b1 / 16 := by
    rw [hp12]; omega
  have g2 : (b0 * 65536 + b1 * 256 + b2) / 2 ^ 6 % 64 = b1 % 16 * 4 + b2 / 64 := by
    rw [hp6]; omega
  have g3 : (b0 * 65536 + b1 * 256 + b2) % 64 = b2 % 64 := by omega
  have g4 : (b3 * 65536 + b4 * 256 + b5) / 2 ^ 18 % 64 = b3 / 4 := by
    rw [hp18]; omega
  have g5 : (b3 * 65536 + b4 * 256 + b5) / 2 ^ 12 % 64 = b3 % 4 * 16 + b4 / 16 := by
    rw [hp12]; omega
  have g6 : (b3 * 65536 + b4 * 256 + b5) / 2 ^ 6 % 64 = b4 % 16 * 4 + b5 / 64 := by
    rw [hp6]; omega
  have g7 : (b3 * 65536 + b4 * 256 + b5) % 64 = b5 % 64 := by omega
  constructor
  · simp only [adsb.decodeAircraftID, callsignSpec, List.length_cons, List.length_nil,
      List.getD_cons_zero, List.getD_cons_succ]
    rw [if_neg (by norm_num)]
    rw [word24_eq b0 b1 b2 h1 h2, word24_eq b3 b4 b5 h4 h5]
    rw [group6_eq, group6_eq, group6_eq, group6_eq, group6_eq, group6_eq,
      and63_eq, and63_eq]
    rw [g0, g1, g2, g3, g4, g5, g6, g7]
  · simp only [map_system.DecodeCallsign, callsignSpec, List.length_cons, List.length_nil,
      List.getD_cons_zero, List.getD_cons_succ]
    rw [if_neg (by norm_num)]
    rw [word24_eq b0 b1 b2 h1 h2, word24_eq b3 b4 b5 h4 h5]
    rw [group6_eq, group6_eq, group6_eq, group6_eq, group6_eq, group6_eq,
      and63_eq, and63_eq]
    rw [g0, g1, g2, g3, g4, g5, g6, g7]

/-- Witness for C6: the 6-byte pattern encoding "KLM1023 " decodes and trims
to "KLM1023" in both decoders. -/
theorem callsign_decode_witness :
    adsb.decodeAircraftID [44, 195, 113, 195, 44, 224]
        = ['K', 'L', 'M', '1', '0', '2', '3'] ∧
    map_system.DecodeCallsign [44, 195, 113, 195, 44, 224]
        = ['K', 'L', 'M', '1', '0', '2', '3'] := by
  have h := callsign_decode 44 195 113 195 44 224 (by norm_num) (by norm_num)
    (by norm_num) (by norm_num) (by norm_num) (by norm_num)
  refine ⟨?_, ?_⟩
  · rw [h.1]
    decide
  · rw [h.2]
    decide

/-- The extended-squitter type-code dispatch never changes the `DF` and
`ICAO` fields of the message it refines. -/
theorem adsb.decodeESFields_preserves (sq : ℤ → ℤ) (a2 : ℤ → ℤ → ℤ)
    (data : List ℕ) (msg : Message) :
    (adsb.decodeESFields sq a2 data msg).DF = msg.DF ∧
    (adsb.decodeESFields sq a2 data msg).ICAO = msg.ICAO := by
  constructor
  · simp only [adsb.decodeESFields, apply_ite Message.DF, ite_self]
  · simp only [adsb.decodeESFields, apply_ite Message.ICAO, ite_self]

/-- Counterexample for C4: a 4-byte DF17 frame (downlink format 17, ICAO
0xAABBCC) is rejected outright by `DecodeMessage` (`nil` in the source,
`none` here); no message carrying the DF and ICAO is produced. -/
theorem DecodeMessage_truncated_counterexample :
    adsb.DecodeMessage (fun _ => 0) (fun _ _ => 0) [0x88, 0xAA, 0xBB, 0xCC] 0 = none := by
  decide

/-- Claim C4 (amended): extended-squitter (DF17/DF18) frames shorter than
the full 14 bytes are rejected wholesale by `DecodeMessage` (it returns
`nil`, yielding neither ICAO nor DF), not partially decoded; a full
14-byte frame always yields a message carrying the downlink format and the
24-bit ICAO address from bytes 1-3, whatever the rest of the body holds. -/
theorem DecodeMessage_es_truncation (sq : ℤ → ℤ) (a2 : ℤ → ℤ → ℤ)
    (data : List ℕ) (ts : ℤ) (hb : ∀ b ∈ data, b < 256)
    (hdf : data.getD 0 0 >>> 3 = 17 ∨ data.getD 0 0 >>> 3 = 18) :
    (data.length < 14 → adsb.DecodeMessage sq a2 data ts = none) ∧
    (14 ≤ data.length → ∃ msg, adsb.DecodeMessage sq a2 data ts = some msg ∧
      msg.DF = data.getD 0 0 >>> 3 ∧
      msg.ICAO = data.getD 1 0 * 65536 + data.getD 2 0 * 256 + data.getD 3 0) := by
  have hb1 : data.getD 1 0 < 256 := by
    rcases Nat.lt_or_ge 1 data.length with hl | hl
    · rw [List.getD_eq_getElem data 0 hl]
      exact hb _ (List.getElem_mem hl)
    · rw [List.getD_eq_default data 0 (by omega)]
      norm_num
  have hb2 : data.getD 2 0 < 256 := by
    rcases Nat.lt_or_ge 2 data.length with hl | hl
    · rw [List.getD_eq_getElem data 0 hl]
      exact hb _ (List.getElem_mem hl)
    · rw [List.getD_eq_default data 0 (by omega)]
      norm_num
  have hb3 : data.getD 3 0 < 256 := by
    rcases Nat.lt_or_ge 3 data.length with hl | hl
    · rw [List.getD_eq_getElem data 0 hl]
      exact hb _ (List.getElem_mem hl)
    · rw [List.getD_eq_default data 0 (by omega)]
      norm_num
  constructor
  · intro hlen
    rcases Nat.lt_or_ge data.length 2 with hl2 | hl2
    · simp only [adsb.DecodeMessage, if_pos hl2]
    · simp only [adsb.DecodeMessage]
      rw [if_neg (Nat.not_lt.mpr hl2),
        if_neg (show ¬ (data.getD 0 0 >>> 3 = 0 ∨ data.getD 0 0 >>> 3 = 16) by omega),
        if_neg (show ¬ (data.getD 0 0 >>> 3 = 4 ∨ data.getD 0 0 >>> 3 = 20) by omega),
        if_neg (show ¬ (data.getD 0 0 >>> 3 = 5 ∨ data.getD 0 0 >>> 3 = 21) by omega),
        if_neg (show ¬ data.getD 0 0 >>> 3 = 11 by omega),
        if_pos hdf, if_pos hlen]
  · intro hlen
    simp only [adsb.DecodeMessage]
    rw [if_neg (show ¬ data.length < 2 by omega),
      if_neg (show ¬ (data.getD 0 0 >>> 3 = 0 ∨ data.getD 0 0 >>> 3 = 16) by omega),
      if_neg (show ¬ (data.getD 0 0 >>> 3 = 4 ∨ data.getD 0 0 >>> 3 = 20) by omega),
      if_neg (show ¬ (data.getD 0 0 >>> 3 = 5 ∨ data.getD 0 0 >>> 3 = 21) by omega),
      if_neg (show ¬ data.getD 0 0 >>> 3 = 11 by omega),
      if_pos hdf, if_neg (show ¬ data.length < 14 by omega)]
    refine ⟨_, rfl, ?_, ?_⟩
    · rw [(adsb.decodeESFields_preserves sq a2 data _).1]
      simp [apply_ite Message.DF]
    · rw [(adsb.decodeESFields_preserves sq a2 data _).2]
      show (data.getD 1 0 <<< 16) ||| (data.getD 2 0 <<< 8) ||| data.getD 3 0
          = data.getD 1 0 * 65536 + data.getD 2 0 * 256 + data.getD 3 0
      exact word24_eq _ _ _ hb2 hb3

/-- Witness for C4: a full 14-byte DF17 frame yields a message carrying
DF 17 and the ICAO address 0x4840D6 from bytes 1-3. -/
theorem DecodeMessage_es_truncation_witness :
    ∃ msg, adsb.DecodeMessage (fun _ => 0) (fun _ _ => 0)
        [0x8D, 0x48, 0x40, 0xD6, 0x20, 0x2C, 0xC3, 0x71, 0xC3, 0x2C, 0xE0, 0x57, 0x60, 0x98] 0
        = some msg ∧ msg.DF = 17 ∧ msg.ICAO = 0x4840D6 := by
  obtain ⟨msg, hm, h1, h2⟩ := (DecodeMessage_es_truncation (fun _ => 0) (fun _ _ => 0)
    [0x8D, 0x48, 0x40, 0xD6, 0x20, 0x2C, 0xC3, 0x71, 0xC3, 0x2C, 0xE0, 0x57, 0x60, 0x98] 0
    (by decide) (by decide)).2 (by norm_num)
  refine ⟨msg, hm, ?_, ?_⟩
  · rw [h1]
    decide
  · rw [h2]
    decide

/-- `w &&& 0xFF` in arithmetic form. -/
theorem and255_eq (w : ℕ) : w &&& 0xFF = w % 256 := by
  rw [show (0xFF : ℕ) = 2 ^ 8 - 1 from rfl, Nat.and_pow_two_sub_one_eq_mod]

/-- Reading `n` byte-stuffed bytes from a stuffed field followed by anything
recovers the field and leaves the remainder. -/
theorem beast.readStuffed_stuffBytes : ∀ (l rest : List ℕ),
    beast.readStuffed l.length (mockserver.stuffBytes l ++ rest) = some (l, rest) := by
  intro l
  induction l with
  | nil => intro rest; rfl
  | cons b l ih =>
    intro rest
    by_cases hb : b = mockserver.EscapeChar
    · subst hb
      show beast.readStuffed (l.length + 1)
          (mockserver.EscapeChar :: mockserver.EscapeChar ::
            (mockserver.stuffBytes l ++ rest))
          = some (mockserver.EscapeChar :: l, rest)
      simp [beast.readStuffed, ih]
    · have hsb : mockserver.stuffByte b = [b] := by
        simp [mockserver.stuffByte, hb]
      show beast.readStuffed (b :: l).length
          ((mockserver.stuffByte b ++ mockserver.stuffBytes l) ++ rest)
          = some (b :: l, rest)
      rw [hsb]
      simp [beast.readStuffed, hb, ih]

/-- The 6-byte big-endian timestamp round-trips for any 48-bit value. -/
theorem beast.fromBE_timestampBytes (ts : ℕ) (h : ts < 2 ^ 48) :
    beast.fromBE (mockserver.timestampBytes ts) = ts := by
  simp only [mockserver.timestampBytes, beast.fromBE, List.foldl_cons, List.foldl_nil,
    and255_eq, Nat.shiftRight_eq_div_pow]
  omega

/-- Claim C9: Beast frame round-trip — encoding any frame with a valid kind
byte, matching payload length and 48-bit timestamp, then decoding the
resulting byte stream, reproduces the exact `(kind, timestamp, signal_level,
payload)` tuple, including payloads, signal levels and timestamps containing
the escape byte 0x1A. -/
theorem beast_roundtrip (msgType : ℕ) (data : List ℕ) (ts sig : ℕ)
    (hlen : beast.payloadLen msgType = some data.length) (hts : ts < 2 ^ 48) :
    beast.decodeBeastMessage (mockserver.encodeBeastMessage msgType data ts sig)
      = some (⟨msgType, ts, sig, data⟩, []) := by
  have hA := beast.readStuffed_stuffBytes (mockserver.timestampBytes ts)
    (mockserver.stuffByte sig ++ mockserver.stuffBytes data)
  have hB := beast.readStuffed_stuffBytes [sig] (mockserver.stuffBytes data)
  have hC := beast.readStuffed_stuffBytes data []
  simp only [List.length_cons, List.length_nil, mockserver.stuffBytes, List.append_nil,
    List.nil_append, List.append_assoc] at hB hC
  have h6 : (mockserver.timestampBytes ts).length = 6 := rfl
  rw [h6] at hA
  simp only [mockserver.encodeBeastMessage, beast.decodeBeastMessage, List.cons_append,
    List.nil_append, List.append_assoc, if_pos rfl, hlen, hA, hB, hC]
  rw [beast.fromBE_timestampBytes ts hts]
  rfl

/-- Witness for C9: a Mode A/C frame whose payload, signal level and
timestamp all contain the escape byte 0x1A round-trips exactly. -/
theorem beast_roundtrip_witness :
    beast.decodeBeastMessage
        (mockserver.encodeBeastMessage mockserver.ModeAC [0x1A, 0x05] 0x1A 0x1A)
      = some (⟨mockserver.ModeAC, 0x1A, 0x1A, [0x1A, 0x05]⟩, []) :=
  beast_roundtrip mockserver.ModeAC [0x1A, 0x05] 0x1A 0x1A (by decide) (by norm_num)

/-- Symbolic execution of `adsb.DecodeCPRPosition` on the success path: given
the values of every intermediate quantity and the outcome of every branch
condition, the resolver returns the selected latitude and longitude. -/
theorem adsb.DecodeCPRPosition_run (E O : Aircraft) (j m ni : ℤ)
    (lat0 lat1 latv lonv : ℚ) (usesOdd : Bool)
    (h1 : ¬ (E.EvenCPRTime = 0 ∨ O.OddCPRTime = 0))
    (h2 : ¬ 10000 < |E.EvenCPRTime - O.OddCPRTime|)
    (hj : (⌊59 * ((E.EvenCPRLat : ℚ) / 131072) - 60 * ((O.OddCPRLat : ℚ) / 131072) + 1/2⌋ : ℤ)
      = j)
    (hlat0 : 360 / 60 * ((adsb.cprModFunction j 60 : ℤ) + (E.EvenCPRLat : ℚ) / 131072) = lat0)
    (hlat1 : 360 / 59 * ((adsb.cprModFunction j 59 : ℤ) + (O.OddCPRLat : ℚ) / 131072) = lat1)
    (hw0 : ¬ (270 : ℚ) ≤ lat0) (hw1 : ¬ (270 : ℚ) ≤ lat1)
    (hr : ¬ (lat0 < -90 ∨ 90 < lat0 ∨ lat1 < -90 ∨ 90 < lat1))
    (hz : adsb.cprNLFunction lat0 = adsb.cprNLFunction lat1)
    (huse : decide (E.EvenCPRTime < O.OddCPRTime) = usesOdd)
    (hsel : (if usesOdd = true then lat1 else lat0) = latv)
    (hni : adsb.cprN latv usesOdd = ni) (hni0 : ¬ ni = 0)
    (hm : (⌊((E.EvenCPRLon : ℚ) * ((adsb.cprNLFunction latv : ℤ) - 1 : ℤ)
          - (O.OddCPRLon : ℚ) * ((adsb.cprNLFunction latv : ℤ) : ℚ)) / 131072 + 1/2⌋ : ℤ) = m)
    (hlon : (if usesOdd = true then
          adsb.cprDlon latv true * ((adsb.cprModFunction m ni : ℤ) + (O.OddCPRLon : ℚ) / 131072)
        else
          adsb.cprDlon latv false * ((adsb.cprModFunction m ni : ℤ) + (E.EvenCPRLon : ℚ) / 131072))
      = lonv)
    (hwrap : ¬ (180 : ℚ) < lonv) :
    adsb.DecodeCPRPosition E O = some (latv, lonv) := by
  simp only [adsb.DecodeCPRPosition]
  rw [if_neg h1, if_neg h2, hj, hlat0, hlat1, if_neg hw0, if_neg hw1, if_neg hr, hz,
    if_neg (show ¬ (adsb.cprNLFunction lat1 ≠ adsb.cprNLFunction lat1) by simp),
    huse, hsel, hni, if_pos hni0, hm, hlon, if_neg hwrap]

/-- The threshold NL value at the worked example's even-based latitude. -/
theorem cprNL_exlat0 : adsb.cprNLFunction (428091/8192 : ℚ) = 36 := by
  norm_num [adsb.cprNLFunction]

/-- The threshold NL value at the worked example's odd-based latitude. -/
theorem cprNL_exlat1 : adsb.cprNLFunction (25261515/483328 : ℚ) = 36 := by
  norm_num [adsb.cprNLFunction]

/-- The lookup-table NL value at the worked example's even-based latitude:
the table reads 49, far from the true zone count 36. -/
theorem map_cprNL_exlat0 : map_system.cprNLFunction (428091/8192 : ℚ) = 49 := by
  have hf : (⌊(428091/8192 : ℚ) + 1/2⌋ : ℤ) = 52 := by
    norm_num [Int.floor_eq_iff]
  simp only [map_system.cprNLFunction]
  rw [if_neg (show ¬ (428091/8192 : ℚ) < 0 by norm_num), hf]
  decide

/-- The lookup-table NL value at the worked example's odd-based latitude. -/
theorem map_cprNL_exlat1 : map_system.cprNLFunction (25261515/483328 : ℚ) = 49 := by
  have hf : (⌊(25261515/483328 : ℚ) + 1/2⌋ : ℤ) = 52 := by
    norm_num [Int.floor_eq_iff]
  simp only [map_system.cprNLFunction]
  rw [if_neg (show ¬ (25261515/483328 : ℚ) < 0 by norm_num), hf]
  decide

/-- Symbolic execution of `map_system.DecodeCPRPosition` on the success path
with `lastOdd = false` (even report selected). -/
theorem map_system.DecodeCPRPosition_run_even (evenLat evenLon oddLat oddLon : ℤ)
    (j m ni : ℤ) (lat0 lat1 lonv : ℚ)
    (hj : (⌊(59 * ((evenLat : ℚ) / 131072) - 60 * ((oddLat : ℚ) / 131072)) / 1 + 1/2⌋ : ℤ) = j)
    (hlat0 : 360 / 60 * ((map_system.cprModFunction j 60 : ℤ) + (evenLat : ℚ) / 131072) = lat0)
    (hlat1 : 360 / 59 * ((map_system.cprModFunction j 59 : ℤ) + (oddLat : ℚ) / 131072) = lat1)
    (hw0 : ¬ (270 : ℚ) ≤ lat0) (hw1 : ¬ (270 : ℚ) ≤ lat1)
    (hz : map_system.cprNLFunction lat0 = map_system.cprNLFunction lat1)
    (hr : ¬ (lat0 < -90 ∨ 90 < lat0))
    (hm : (⌊((evenLon : ℚ) / 131072 * ((map_system.cprNLFunction lat0 : ℤ) - 1 : ℤ)
        - (oddLon : ℚ) / 131072 * ((map_system.cprNLFunction lat0 : ℤ) : ℚ)) / 1 + 1/2⌋ : ℤ) = m)
    (hni : map_system.cprNFunction lat0 false = ni) (hni0 : ¬ ni = 0)
    (hlon : map_system.cprDlonFunction lat0 false false
        * ((map_system.cprModFunction m ni : ℤ) + (evenLon : ℚ) / 131072) = lonv)
    (hwrap : ¬ (180 : ℚ) < lonv) :
    map_system.DecodeCPRPosition evenLat evenLon oddLat oddLon false = some (lat0, lonv) := by
  have hfb : ((false : Bool) = true) = False := by simp
  simp only [map_system.DecodeCPRPosition, hfb, if_false]
  rw [hj, hlat0, hlat1, if_neg hw0, if_neg hw1, hm, hz,
    if_neg (show ¬ (map_system.cprNLFunction lat1 ≠ map_system.cprNLFunction lat1) by simp),
    if_neg hr, hni, if_neg hni0, hlon, if_neg hwrap]

/-- Symbolic execution of `map_system.DecodeCPRPosition` on the success path
with `lastOdd = true` (odd report selected). -/
theorem map_system.DecodeCPRPosition_run_odd (evenLat evenLon oddLat oddLon : ℤ)
    (j m ni : ℤ) (lat0 lat1 lonv : ℚ)
    (hj : (⌊(59 * ((evenLat : ℚ) / 131072) - 60 * ((oddLat : ℚ) / 131072)) / 1 + 1/2⌋ : ℤ) = j)
    (hlat0 : 360 / 60 * ((map_system.cprModFunction j 60 : ℤ) + (evenLat : ℚ) / 131072) = lat0)
    (hlat1 : 360 / 59 * ((map_system.cprModFunction j 59 : ℤ) + (oddLat : ℚ) / 131072) = lat1)
    (hw0 : ¬ (270 : ℚ) ≤ lat0) (hw1 : ¬ (270 : ℚ) ≤ lat1)
    (hz : map_system.cprNLFunction lat0 = map_system.cprNLFunction lat1)
    (hr : ¬ (lat1 < -90 ∨ 90 < lat1))
    (hm : (⌊((evenLon : ℚ) / 131072 * ((map_system.cprNLFunction lat1 : ℤ) - 1 : ℤ)
        - (oddLon : ℚ) / 131072 * ((map_system.cprNLFunction lat1 : ℤ) : ℚ)) / 1 + 1/2⌋ : ℤ) = m)
    (hni : map_system.cprNFunction lat1 true = ni) (hni0 : ¬ ni = 0)
    (hlon : map_system.cprDlonFunction lat1 true false
        * ((map_system.cprModFunction m ni : ℤ) + (oddLon : ℚ) / 131072) = lonv)
    (hwrap : ¬ (180 : ℚ) < lonv) :
    map_system.DecodeCPRPosition evenLat evenLon oddLat oddLon true = some (lat1, lonv) := by
  have htb : ((true : Bool) = true) = True := by simp
  simp only [map_system.DecodeCPRPosition, htb, if_true]
  rw [hj, hlat0, hlat1, if_neg hw0, if_neg hw1, hm, hz,
    if_neg (show ¬ (map_system.cprNLFunction lat1 ≠ map_system.cprNLFunction lat1) by simp),
    if_neg hr, hni, if_neg hni0, hlon, if_neg hwrap]

/-- The `map_system` resolver's value on the worked example with the even
report selected: latitude ≈ 52.2572 but longitude 577935/200704 ≈ 2.8795,
driven by its table value NL = 49. -/
theorem map_cpr_example_even_eval :
    map_system.DecodeCPRPosition 93000 51372 74158 50194 false
      = some (428091/8192, 577935/200704) := by
  have hm60 : map_system.cprModFunction 8 60 = 8 := by decide
  have hm59 : map_system.cprModFunction 8 59 = 8 := by decide
  have hm49 : map_system.cprModFunction 0 49 = 0 := by decide
  apply map_system.DecodeCPRPosition_run_even 93000 51372 74158 50194 8 0 49
    (428091/8192) (25261515/483328) (577935/200704)
  · norm_num [Int.floor_eq_iff]
  · rw [hm60]
    norm_num
  · rw [hm59]
    norm_num
  · norm_num
  · norm_num
  · rw [map_cprNL_exlat0, map_cprNL_exlat1]
  · norm_num
  · rw [map_cprNL_exlat0]
    norm_num [Int.floor_eq_iff]
  · simp [map_system.cprNFunction, map_cprNL_exlat0]
  · norm_num
  · rw [hm49]
    simp only [map_system.cprDlonFunction, map_system.cprNFunction, map_cprNL_exlat0]
    norm_num
  · norm_num

/-- The `map_system` resolver's value on the worked example with the odd
report selected: longitude 376455/131072 ≈ 2.8721. -/
theorem map_cpr_example_odd_eval :
    map_system.DecodeCPRPosition 93000 51372 74158 50194 true
      = some (25261515/483328, 376455/131072) := by
  have hm60 : map_system.cprModFunction 8 60 = 8 := by decide
  have hm59 : map_system.cprModFunction 8 59 = 8 := by decide
  have hm48 : map_system.cprModFunction 0 48 = 0 := by decide
  apply map_system.DecodeCPRPosition_run_odd 93000 51372 74158 50194 8 0 48
    (428091/8192) (25261515/483328) (376455/131072)
  · norm_num [Int.floor_eq_iff]
  · rw [hm60]
    norm_num
  · rw [hm59]
    norm_num
  · norm_num
  · norm_num
  · rw [map_cprNL_exlat0, map_cprNL_exlat1]
  · norm_num
  · rw [map_cprNL_exlat1]
    norm_num [Int.floor_eq_iff]
  · simp [map_system.cprNFunction, map_cprNL_exlat1]
  · norm_num
  · rw [hm48]
    simp only [map_system.cprDlonFunction, map_system.cprNFunction, map_cprNL_exlat1]
    norm_num
  · norm_num

/-- Claim C1 (amended): for the canonical CPR worked example received within
the 10-second window, the adsb-module resolver returns a position within
1e-3° of (52.25713 N, 3.91937 E) when the even report is at least as recent
as the odd one; the map_system resolver, whose lookup-table NL reads 49
instead of 36 at this latitude, returns a resolved position whose longitude
is more than 1e-3° away from 3.91937 E in either recency order — it never
reproduces the expected longitude for this example. -/
theorem cpr_worked_example (te td : ℤ) (hte : te ≠ 0) (htd : td ≠ 0)
    (hwin : |te - td| ≤ 10000) (hrecent : td ≤ te) :
    (∃ p : ℚ × ℚ,
      adsb.DecodeCPRPosition (cprExample te td) (cprExample te td) = some p ∧
      |p.1 - 52.25713| ≤ 1/1000 ∧ |p.2 - 3.91937| ≤ 1/1000) ∧
    (∃ p : ℚ × ℚ,
      map_system.DecodeCPRPosition 93000 51372 74158 50194 false = some p ∧
      1/1000 < |p.2 - 3.91937|) ∧
    (∃ p : ℚ × ℚ,
      map_system.DecodeCPRPosition 93000 51372 74158 50194 true = some p ∧
      1/1000 < |p.2 - 3.91937|) := by
  refine ⟨⟨(428091/8192, 64215/16384), ?_, by norm_num [abs_le], by norm_num [abs_le]⟩,
    ⟨(428091/8192, 577935/200704), map_cpr_example_even_eval, ?_⟩,
    ⟨(25261515/483328, 376455/131072), map_cpr_example_odd_eval, ?_⟩⟩
  · have hm60 : adsb.cprModFunction 8 60 = 8 := by decide
    have hm59 : adsb.cprModFunction 8 59 = 8 := by decide
    have hm36 : adsb.cprModFunction 0 36 = 0 := by decide
    apply adsb.DecodeCPRPosition_run (cprExample te td) (cprExample te td) 8 0 36
      (428091/8192) (25261515/483328) (428091/8192) (64215/16384) false
    · simp only [cprExample, zeroAircraft]
      push_neg
      exact ⟨hte, htd⟩
    · simp only [cprExample, zeroAircraft]
      exact not_lt.mpr hwin
    · simp only [cprExample, zeroAircraft]
      norm_num [Int.floor_eq_iff]
    · rw [hm60]
      simp only [cprExample, zeroAircraft]
      norm_num
    · rw [hm59]
      simp only [cprExample, zeroAircraft]
      norm_num
    · norm_num
    · norm_num
    · norm_num
    · rw [cprNL_exlat0, cprNL_exlat1]
    · simp only [cprExample, zeroAircraft]
      exact decide_eq_false (not_lt.mpr hrecent)
    · norm_num
    · simp [adsb.cprN, cprNL_exlat0]
    · norm_num
    · rw [cprNL_exlat0]
      simp only [cprExample, zeroAircraft]
      norm_num [Int.floor_eq_iff]
    · rw [hm36]
      simp only [cprExample, zeroAircraft]
      simp [adsb.cprDlon, adsb.cprN, cprNL_exlat0]
      norm_num
    · norm_num
  · rw [show ((428091/8192, 577935/200704) : ℚ × ℚ).2 = 577935/200704 from rfl,
      abs_of_neg (show (577935/200704 - 3.91937 : ℚ) < 0 by norm_num)]
    norm_num
  · rw [show ((25261515/483328, 376455/131072) : ℚ × ℚ).2 = 376455/131072 from rfl,
      abs_of_neg (show (376455/131072 - 3.91937 : ℚ) < 0 by norm_num)]
    norm_num

/-- Counterexample for C1: the claim as stated fails for both cited
resolvers.  With the odd report more recent (even at t=1000 ms, odd at
t=2000 ms, within the window) the adsb resolver selects the odd-based
position ≈ (52.26578, 3.93891), outside both 1e-3 tolerances; and the
map_system resolver — whose table NL reads 49 rather than 36 near 52.26° —
returns longitude ≈ 2.8795 (even selected) or ≈ 2.8721 (odd selected),
never within 1e-3 of 3.91937 E in either recency order. -/
theorem cpr_worked_example_counterexample :
    (¬ ∃ p : ℚ × ℚ,
        adsb.DecodeCPRPosition (cprExample 1000 2000) (cprExample 1000 2000) = some p ∧
        |p.1 - 52.25713| ≤ 1/1000 ∧ |p.2 - 3.91937| ≤ 1/1000) ∧
    (¬ ∃ p : ℚ × ℚ,
        map_system.DecodeCPRPosition 93000 51372 74158 50194 false = some p ∧
        |p.1 - 52.25713| ≤ 1/1000 ∧ |p.2 - 3.91937| ≤ 1/1000) ∧
    (¬ ∃ p : ℚ × ℚ,
        map_system.DecodeCPRPosition 93000 51372 74158 50194 true = some p ∧
        |p.1 - 52.25713| ≤ 1/1000 ∧ |p.2 - 3.91937| ≤ 1/1000) := by
  have hm60 : adsb.cprModFunction 8 60 = 8 := by decide
  have hm59 : adsb.cprModFunction 8 59 = 8 := by decide
  have hm35 : adsb.cprModFunction 0 35 = 0 := by decide
  have heval : adsb.DecodeCPRPosition (cprExample 1000 2000) (cprExample 1000 2000)
      = some (25261515/483328, 225873/57344) := by
    apply adsb.DecodeCPRPosition_run (cprExample 1000 2000) (cprExample 1000 2000) 8 0 35
      (428091/8192) (25261515/483328) (25261515/483328) (225873/57344) true
    · simp [cprExample, zeroAircraft]
    · simp only [cprExample, zeroAircraft]
      norm_num
    · simp only [cprExample, zeroAircraft]
      norm_num [Int.floor_eq_iff]
    · rw [hm60]
      simp only [cprExample, zeroAircraft]
      norm_num
    · rw [hm59]
      simp only [cprExample, zeroAircraft]
      norm_num
    · norm_num
    · norm_num
    · norm_num
    · rw [cprNL_exlat0, cprNL_exlat1]
    · simp only [cprExample, zeroAircraft]
      decide
    · norm_num
    · simp [adsb.cprN, cprNL_exlat1]
    · norm_num
    · rw [cprNL_exlat1]
      simp only [cprExample, zeroAircraft]
      norm_num [Int.floor_eq_iff]
    · rw [hm35]
      simp only [cprExample, zeroAircraft]
      simp [adsb.cprDlon, adsb.cprN, cprNL_exlat1]
      norm_num
    · norm_num
  refine ⟨?_, ?_, ?_⟩
  · rintro ⟨p, hp, hlat, -⟩
    rw [heval, Option.some_inj] at hp
    subst hp
    norm_num [abs_le] at hlat
  · rintro ⟨p, hp, -, hlon⟩
    rw [map_cpr_example_even_eval, Option.some_inj] at hp
    subst hp
    norm_num [abs_le] at hlon
  · rintro ⟨p, hp, -, hlon⟩
    rw [map_cpr_example_odd_eval, Option.some_inj] at hp
    subst hp
    norm_num [abs_le] at hlon

/-- Witness for C1: even report at t=2000 ms, odd at t=1000 ms (window 1 s,
even more recent): the adsb resolver returns the canonical position, and the
map_system resolver misses the expected longitude in both recency orders. -/
theorem cpr_worked_example_witness :
    (∃ p : ℚ × ℚ,
      adsb.DecodeCPRPosition (cprExample 2000 1000) (cprExample 2000 1000) = some p ∧
      |p.1 - 52.25713| ≤ 1/1000 ∧ |p.2 - 3.91937| ≤ 1/1000) ∧
    (∃ p : ℚ × ℚ,
      map_system.DecodeCPRPosition 93000 51372 74158 50194 false = some p ∧
      1/1000 < |p.2 - 3.91937|) ∧
    (∃ p : ℚ × ℚ,
      map_system.DecodeCPRPosition 93000 51372 74158 50194 true = some p ∧
      1/1000 < |p.2 - 3.91937|) :=
  cpr_worked_example 2000 1000 (by norm_num) (by norm_num) (by norm_num) (by norm_num)
